import Mathlib

/-!
Verification of the `atomiclock` crate (src/lib.rs): a non-blocking atomic
lock `AtomicLock<T>` with a scoped `Guard`.

Shallow embedding conventions:
* `AtomicLock T` mirrors the Rust struct: the `AtomicBool` flag becomes a
  `Bool` field `lock`, the `UnsafeCell<T>` becomes a plain field `data`.
* The sequential semantics of each operation is a pure state-passing
  function.  `compare_exchange_weak` is permitted to fail spuriously even
  when the flag is `false`; this nondeterminism is made explicit by a
  `spurious : Bool` input to the lock operation: `spurious = true` selects
  an execution in which the weak CAS fails for no reason.
* `unlock` performs `swap(false)` and then `assert_eq!(old, true)`; an
  assertion failure aborts the process, modelled by returning `none`.
* A `Guard` in Rust holds `&'a AtomicLock<T>` and `&'a mut T`; in the
  embedding a guard carries the value its `data` reference points at, kept
  in sync with the lock's cell by `guardSet` (a write through `&mut T`
  updates both views, since they alias).
-/

/-- The Rust struct `AtomicLock<T> { lock: AtomicBool, data: UnsafeCell<T> }`.
The atomic flag is modelled as a `Bool`, the cell as a plain value. -/
structure AtomicLock (T : Type) where
  lock : Bool
  data : T
deriving DecidableEq

/-- The Rust struct `Guard<'a, T> { lock: &'a AtomicLock<T>, data: &'a mut T }`.
The embedding keeps the value the `data` reference currently points at; the
back-reference used by `drop` is represented by applying `AtomicLock.unlock`
to the lock state explicitly. -/
structure Guard (T : Type) where
  data : T
deriving DecidableEq

/-- `AtomicLock::new(data)`: flag starts `false`, cell holds `data`. -/
def AtomicLock.new {T : Type} (data : T) : AtomicLock T :=
  { lock := false, data := data }

/-- `AtomicLock::lock(&self) -> Option<Guard<T>>`:
`compare_exchange_weak(false, true, Acquire, Relaxed)`.  Succeeds exactly
when the flag is `false` and the weak CAS does not spuriously fail; on
success the flag becomes `true` and a guard borrowing the cell is returned;
on failure the state is unchanged and `None` is returned.  (Named `lockOp`
because the field `lock` already uses the source name.) -/
def AtomicLock.lockOp {T : Type} (s : AtomicLock T) (spurious : Bool) :
    Option (Guard T) × AtomicLock T :=
  if s.lock = false ∧ spurious = false then
    (some { data := s.data }, { s with lock := true })
  else
    (none, s)

/-- `AtomicLock::unlock(&self)`: `let old = self.lock.swap(false, Release);
assert_eq!(old, true);`.  `none` models the aborted execution when the
assertion fails (the flag was already `false`). -/
def AtomicLock.unlock {T : Type} (s : AtomicLock T) : Option (AtomicLock T) :=
  if s.lock = true then some { s with lock := false } else none

/-- `AtomicLock::into_inner(self) -> T`: consumes the lock and returns
`self.data.into_inner()`. -/
def AtomicLock.into_inner {T : Type} (s : AtomicLock T) : T :=
  s.data

/-- A write through the guard's `&mut T`: the cell and the guard's view of
it alias, so both are updated. -/
def guardSet {T : Type} (s : AtomicLock T) (g : Guard T) (x : T) :
    AtomicLock T × Guard T :=
  ({ s with data := x }, { g with data := x })

/-- `Deref for Guard`: `fn deref(&self) -> &T { self.data }`. -/
def Guard.deref {T : Type} (g : Guard T) : T :=
  g.data

/-- `Drop for Guard`: `fn drop(&mut self) { self.lock.unlock(); }` applied
to the guard's originating lock state. -/
def guardDrop {T : Type} (s : AtomicLock T) : Option (AtomicLock T) :=
  s.unlock

/-- A runtime configuration: the lock state together with the number of
live guards (ghost state tracking how many `Guard` values currently exist
for this lock). -/
structure Config (T : Type) where
  state : AtomicLock T
  guards : Nat
deriving DecidableEq

/-- The initial configuration produced by `AtomicLock::new`: no guard
exists yet. -/
def initConfig {T : Type} (v : T) : Config T :=
  { state := AtomicLock.new v, guards := 0 }

/-- One step of the lock protocol, as the source performs it:
* `lockAttempt`: any caller runs `lock()`; a returned guard (if any) adds
  one live guard;
* `guardWrite`: a holder writes through its guard's `&mut T`;
* `guardDrop`: a live guard is dropped, running `unlock()`; the step exists
  only when the `assert_eq!(old, true)` inside `unlock` does not abort. -/
inductive Step {T : Type} : Config T → Config T → Prop
  | lockAttempt (c : Config T) (sp : Bool) (og : Option (Guard T))
      (s' : AtomicLock T) :
      c.state.lockOp sp = (og, s') →
      Step c { state := s', guards := c.guards + (if og.isSome then 1 else 0) }
  | guardWrite (c : Config T) (x : T) :
      1 ≤ c.guards →
      Step c { state := { c.state with data := x }, guards := c.guards }
  | guardDrop (c : Config T) (s' : AtomicLock T) :
      1 ≤ c.guards →
      c.state.unlock = some s' →
      Step c { state := s', guards := c.guards - 1 }

/-- The documented invariant: the flag is `true` iff some guard exists, and
at most one guard exists at any instant. -/
def Config.Inv {T : Type} (c : Config T) : Prop :=
  (c.state.lock = true ↔ 1 ≤ c.guards) ∧ c.guards ≤ 1

instance {T : Type} (c : Config T) : Decidable c.Inv := by
  unfold Config.Inv
  infer_instance

/-- Claim C1: the flag is `true` iff some guard currently exists, and at
most one guard exists per lock at any instant; `new` establishes this
invariant and every protocol step (`lock()`, a write through a guard, and a
guard drop running `unlock()`) preserves it. -/
theorem lock_guard_invariant {T : Type} (v : T) :
    (initConfig v).Inv ∧
      ∀ c c' : Config T, c.Inv → Step c c' → c'.Inv := by
  constructor
  · simp [initConfig, Config.Inv, AtomicLock.new]
  · intro c c' hinv hstep
    rcases hinv with ⟨hiff, hle⟩
    cases hstep with
    | lockAttempt sp og s' h =>
      unfold AtomicLock.lockOp at h
      by_cases hl : c.state.lock = false ∧ sp = false
      · rw [if_pos hl] at h
        obtain ⟨hog, hs⟩ := Prod.mk.injEq .. ▸ h
        have hg0 : c.guards = 0 := by
          rcases Nat.eq_zero_or_pos c.guards with h0 | h1
          · exact h0
          · exact absurd (hiff.mpr h1) (by simp [hl.1])
        subst hog hs
        constructor <;> simp [Config.Inv, hg0]
      · rw [if_neg hl] at h
        obtain ⟨hog, hs⟩ := Prod.mk.injEq .. ▸ h
        subst hog hs
        simpa [Config.Inv] using ⟨hiff, hle⟩
    | guardWrite x hg => exact ⟨hiff, hle⟩
    | guardDrop s' hg hu =>
      unfold AtomicLock.unlock at hu
      by_cases hl : c.state.lock = true
      · rw [if_pos hl] at hu
        have hg1 : c.guards = 1 := Nat.le_antisymm hle (hiff.mp hl)
        cases hu
        constructor <;> simp [hg1]
      · simp [hl] at hu

/-- Witness for C1: the invariant holds of the concrete initial
configuration for value `0`, and is carried across a concrete successful
`lock()` step. -/
theorem lock_guard_invariant_witness :
    Config.Inv ({ state := { lock := true, data := 0 }, guards := 1 } :
      Config Nat) :=
  (lock_guard_invariant 0).2
    { state := { lock := false, data := 0 }, guards := 0 }
    { state := { lock := true, data := 0 }, guards := 1 }
    (by decide)
    (Step.lockAttempt _ false (some { data := 0 }) { lock := true, data := 0 }
      rfl)

/-- Claim C8: consuming extraction is the inverse of construction: for every
value `x`, `AtomicLock::new(x).into_inner()` yields exactly `x`. -/
theorem into_inner_new {T : Type} (x : T) :
    (AtomicLock.new x).into_inner = x :=
  rfl

/-- Claim C9: for every initial value `v`, `new(v)` builds a lock whose flag
is `false` and whose stored value is `v` (it is a total function: no failure
mode). -/
theorem new_spec {T : Type} (v : T) :
    (AtomicLock.new v).lock = false ∧ (AtomicLock.new v).data = v :=
  ⟨rfl, rfl⟩

/-- Claim C3: calling `unlock` on a lock whose flag is already `false`
fails the `assert_eq!(old, true)` and aborts (modelled by `none`), never
succeeding silently; calling it when the flag is `true` succeeds and
returns the state with the flag cleared. -/
theorem unlock_spec {T : Type} (s : AtomicLock T) :
    (s.lock = false → s.unlock = none) ∧
      (s.lock = true → s.unlock = some { s with lock := false }) := by
  constructor
  · intro h
    simp [AtomicLock.unlock, h]
  · intro h
    simp [AtomicLock.unlock, h]

/-- Witness for C3: both branches evaluated on concrete locks over `Nat`. -/
theorem unlock_spec_witness :
    (AtomicLock.mk false (7 : Nat)).unlock = none ∧
      (AtomicLock.mk true (7 : Nat)).unlock =
        some (AtomicLock.mk false 7) :=
  ⟨(unlock_spec (AtomicLock.mk false 7)).1 rfl,
    (unlock_spec (AtomicLock.mk true 7)).2 rfl⟩

/-- Claim C5: whenever the flag is `true` (a guard is alive), `lock()`
returns `None` and leaves the state unchanged, for every execution of the
weak CAS — never a second guard and never a fault (`lockOp` is a total
function, so the call returns at once with no internal retry). -/
theorem lock_contended {T : Type} (s : AtomicLock T) (sp : Bool)
    (h : s.lock = true) :
    s.lockOp sp = (none, s) := by
  simp [AtomicLock.lockOp, h]

/-- Witness for C5: a concrete held lock refuses a second acquisition. -/
theorem lock_contended_witness :
    (AtomicLock.mk true (3 : Nat)).lock = true ∧
      (AtomicLock.mk true (3 : Nat)).lockOp false =
        (none, AtomicLock.mk true 3) :=
  ⟨rfl, lock_contended (AtomicLock.mk true 3) false rfl⟩

/-- Claim C6: `lock()` may fail even when the flag is `false` at the
instant of the call: the execution in which the weak compare-and-swap
spuriously fails returns `None` and leaves the state unchanged. -/
theorem lock_spurious_failure {T : Type} (s : AtomicLock T)
    (h : s.lock = false) :
    s.lockOp true = (none, s) := by
  simp [AtomicLock.lockOp, h]

/-- Witness for C6: a concrete free lock still refused on the spurious
execution. -/
theorem lock_spurious_failure_witness :
    (AtomicLock.mk false (3 : Nat)).lock = false ∧
      (AtomicLock.mk false (3 : Nat)).lockOp true =
        (none, AtomicLock.mk false 3) :=
  ⟨rfl, lock_spurious_failure (AtomicLock.mk false 3) rfl⟩

/-- Counterexample to C4 as stated: after a guard's drop has run (here on
the lock built by `new 0`, locked and then dropped), a single subsequent
`lock()` call can still return `None` despite the absence of any
contention, on the execution where the weak CAS spuriously fails. -/
theorem relock_single_attempt_cex :
    ∃ s' : AtomicLock Nat,
      ((AtomicLock.new 0).lockOp false).snd.unlock = some s' ∧
        s'.lock = false ∧ (s'.lockOp true).fst = none :=
  ⟨AtomicLock.mk false 0, rfl, rfl, rfl⟩

/-- Claim C4 (amended): after a guard's drop has run (its `unlock`
succeeded), a subsequent single `lock()` call succeeds and returns a guard,
absent new contention and provided the weak CAS does not spuriously fail. -/
theorem relock_after_drop {T : Type} (s s' : AtomicLock T)
    (h : s.unlock = some s') :
    s'.lockOp false = (some { data := s'.data }, { s' with lock := true }) := by
  unfold AtomicLock.unlock at h
  by_cases hl : s.lock = true
  · rw [if_pos hl] at h
    cases h
    simp [AtomicLock.lockOp]
  · simp [hl] at h

/-- Witness for C4 (amended): a concrete drop followed by a successful
non-spurious reacquisition. -/
theorem relock_after_drop_witness :
    (AtomicLock.mk true (5 : Nat)).unlock = some (AtomicLock.mk false 5) ∧
      (AtomicLock.mk false (5 : Nat)).lockOp false =
        (some (Guard.mk 5), AtomicLock.mk true 5) :=
  ⟨rfl, relock_after_drop (AtomicLock.mk true 5) (AtomicLock.mk false 5) rfl⟩

/-- Claim C7: acquiring and releasing never modify the protected value
(both `lockOp` and `unlock` leave `data` untouched), and the scenario of
the claim: starting from `new v`, a guard is obtained, `x` is written
through it, the guard is dropped, and the next successful acquirer's guard
observes exactly `x`. -/
theorem write_visibility {T : Type} :
    (∀ (s : AtomicLock T) (sp : Bool), ((s.lockOp sp).snd).data = s.data) ∧
      (∀ s s' : AtomicLock T, s.unlock = some s' → s'.data = s.data) ∧
      (∀ v x : T,
        ∃ (g1 : Guard T) (s1 s2 : AtomicLock T) (g1' : Guard T)
          (s3 : AtomicLock T) (g2 : Guard T) (s4 : AtomicLock T),
          (AtomicLock.new v).lockOp false = (some g1, s1) ∧
            guardSet s1 g1 x = (s2, g1') ∧
            s2.unlock = some s3 ∧
            s3.lockOp false = (some g2, s4) ∧
            g2.deref = x) := by
  refine ⟨?_, ?_, ?_⟩
  · intro s sp
    unfold AtomicLock.lockOp
    by_cases h : s.lock = false ∧ sp = false <;> simp [h]
  · intro s s' h
    unfold AtomicLock.unlock at h
    by_cases hl : s.lock = true
    · rw [if_pos hl] at h
      cases h
      rfl
    · simp [hl] at h
  · intro v x
    exact ⟨{ data := v }, { lock := true, data := v }, { lock := true, data := x },
      { data := x }, { lock := false, data := x }, { data := x },
      { lock := true, data := x }, rfl, rfl, rfl, rfl, rfl⟩

/-- Witness for C7: the release-preserves-data part applied to a concrete
lock, and the concrete `0`-then-`42` scenario of the claim. -/
theorem write_visibility_witness :
    (AtomicLock.mk false (42 : Nat)).data = (AtomicLock.mk true 42).data ∧
      (∃ (g1 : Guard Nat) (s1 s2 : AtomicLock Nat) (g1' : Guard Nat)
        (s3 : AtomicLock Nat) (g2 : Guard Nat) (s4 : AtomicLock Nat),
        (AtomicLock.new 0).lockOp false = (some g1, s1) ∧
          guardSet s1 g1 42 = (s2, g1') ∧
          s2.unlock = some s3 ∧
          s3.lockOp false = (some g2, s4) ∧
          g2.deref = 42) :=
  ⟨(write_visibility (T := Nat)).2.1 (AtomicLock.mk true 42)
      (AtomicLock.mk false 42) rfl,
    (write_visibility (T := Nat)).2.2 0 42⟩

/-- The two fields printed by `Debug for AtomicLock`:
`.field("locked", ...)` becomes `locked`, and `.field("data", ...)`
becomes `data`, where `none` stands for the placeholder string
`"<Locked>"` (the protected value is not read) and `some v` stands for the
value rendered through the obtained guard. -/
structure DebugOutput (T : Type) where
  locked : Bool
  data : Option T
deriving DecidableEq

/-- `Debug for AtomicLock`: `fmt` calls `self.lock()`; on `None` it prints
`locked: true, data: "<Locked>"`; on `Some(data)` it prints
`locked: false` with the value, and the guard is dropped (running
`unlock`) when the match arm ends.  The outer `Option` is `none` only if
that drop's assertion were to abort. -/
def AtomicLock.debugFmt {T : Type} (s : AtomicLock T) (sp : Bool) :
    Option (DebugOutput T × AtomicLock T) :=
  match s.lockOp sp with
  | (none, s') => some ({ locked := true, data := none }, s')
  | (some g, s') =>
      (guardDrop s').map fun s'' => ({ locked := false, data := some g.data }, s'')

/-- Claim C10: `Debug` formatting attempts an acquire; if the attempt
fails it prints `locked = true` with the `"<Locked>"` placeholder (the
protected value is not read); if it succeeds it prints `locked = false`
together with the value; in either case it returns without aborting and
the final state — in particular the flag — equals the state before the
call. -/
theorem debug_fmt_spec {T : Type} (s : AtomicLock T) (sp : Bool) :
    (s.lock = true ∨ sp = true →
      s.debugFmt sp = some ({ locked := true, data := none }, s)) ∧
      (s.lock = false ∧ sp = false →
        s.debugFmt sp = some ({ locked := false, data := some s.data }, s)) := by
  obtain ⟨l, d⟩ := s
  constructor
  · intro h
    have hcond : ¬(l = false ∧ sp = false) := by
      rcases h with h | h <;> simp_all
    simp [AtomicLock.debugFmt, AtomicLock.lockOp, hcond]
  · rintro ⟨h1, h2⟩
    have h1' : l = false := h1
    have h2' : sp = false := h2
    subst h1' h2'
    rfl

/-- Witness for C10: both branches evaluated on concrete locks: a held
lock prints `locked = true` without the value and is left unchanged; a
free lock (non-spurious execution) prints `locked = false` with the value
and has its flag restored to `false`. -/
theorem debug_fmt_spec_witness :
    (AtomicLock.mk true (9 : Nat)).debugFmt false =
        some ({ locked := true, data := none }, AtomicLock.mk true 9) ∧
      (AtomicLock.mk false (9 : Nat)).debugFmt false =
        some ({ locked := false, data := some 9 }, AtomicLock.mk false 9) :=
  ⟨(debug_fmt_spec (AtomicLock.mk true 9) false).1 (Or.inl rfl),
    (debug_fmt_spec (AtomicLock.mk false 9) false).2 ⟨rfl, rfl⟩⟩

/-- Which of the standard Rust traits src/lib.rs implements for `Guard`:
one Boolean per trait considered by the source or by the claims. -/
structure GuardTraitImpls where
  hasDebug : Bool
  hasDrop : Bool
  hasDisplay : Bool
  hasAsRef : Bool
  hasAsMut : Bool
  hasDeref : Bool
  hasDerefMut : Bool
  hasSend : Bool
  hasPartialEq : Bool
  hasEq : Bool
  hasPartialOrd : Bool
  hasOrd : Bool
  hasHash : Bool
  hasClone : Bool
  hasCopy : Bool
deriving DecidableEq

/-- The trait implementations src/lib.rs actually provides for `Guard`:
`#[derive(Debug)]` (line 110), `Drop` (117-121), `Display` (166-170),
`AsRef` (176-180), `AsMut` (182-186), `Deref` (190-195), `DerefMut`
(197-201), `Send` (211).  No impl of `PartialEq`, `Eq`, `PartialOrd`,
`Ord` or `Hash` appears anywhere in the file, and `Clone`/`Copy` are
deliberately omitted. -/
def guardImpls : GuardTraitImpls where
  hasDebug := true
  hasDrop := true
  hasDisplay := true
  hasAsRef := true
  hasAsMut := true
  hasDeref := true
  hasDerefMut := true
  hasSend := true
  hasPartialEq := false
  hasEq := false
  hasPartialOrd := false
  hasOrd := false
  hasHash := false
  hasClone := false
  hasCopy := false

/-- Counterexample to C2 as stated: `Guard` implements none of the
comparison traits — equality, ordering and hashing are not provided by the
source, so two Guards cannot be compared or hashed directly at all. -/
theorem guard_cmp_traits_cex :
    guardImpls.hasPartialEq = false ∧ guardImpls.hasEq = false ∧
      guardImpls.hasPartialOrd = false ∧ guardImpls.hasOrd = false ∧
      guardImpls.hasHash = false :=
  ⟨rfl, rfl, rfl, rfl, rfl⟩

/-- Claim C2 (amended): `Guard` does not implement equality, ordering or
hashing; it delegates access to the underlying value through
`Deref`/`AsRef`, and the dereferenced values of two sequentially obtained
Guards follow the underlying value's own equality and ordering: they are
equal iff the wrapped values are equal, and a guard wrapping `3`
dereferences below a guard wrapping `5`. -/
theorem guard_delegated_access :
    guardImpls.hasPartialEq = false ∧ guardImpls.hasHash = false ∧
      guardImpls.hasDeref = true ∧ guardImpls.hasAsRef = true ∧
      ∀ (a b : Nat) (g1 g2 : Guard Nat) (s1 s2 : AtomicLock Nat),
        (AtomicLock.new a).lockOp false = (some g1, s1) →
        (AtomicLock.new b).lockOp false = (some g2, s2) →
        (g1.deref = g2.deref ↔ a = b) ∧ (g1.deref < g2.deref ↔ a < b) := by
  refine ⟨rfl, rfl, rfl, rfl, ?_⟩
  intro a b g1 g2 s1 s2 h1 h2
  have e1 : (AtomicLock.new a).lockOp false
      = (some { data := a }, { lock := true, data := a }) := rfl
  have e2 : (AtomicLock.new b).lockOp false
      = (some { data := b }, { lock := true, data := b }) := rfl
  rw [h1] at e1
  rw [h2] at e2
  obtain ⟨eg1, -⟩ := Prod.mk.injEq .. ▸ e1
  obtain ⟨eg2, -⟩ := Prod.mk.injEq .. ▸ e2
  cases eg1
  cases eg2
  simp [Guard.deref]

/-- Witness for C2 (amended): guards obtained from locks holding `3` and
`3` dereference to equal values, and from `3` and `5` the first
dereferences below the second. -/
theorem guard_delegated_access_witness :
    (Guard.mk (3 : Nat)).deref = (Guard.mk (3 : Nat)).deref ∧
      (Guard.mk (3 : Nat)).deref < (Guard.mk (5 : Nat)).deref :=
  ⟨(guard_delegated_access.2.2.2.2 3 3 (Guard.mk 3) (Guard.mk 3)
      (AtomicLock.mk true 3) (AtomicLock.mk true 3) rfl rfl).1.mpr rfl,
    (guard_delegated_access.2.2.2.2 3 5 (Guard.mk 3) (Guard.mk 5)
      (AtomicLock.mk true 3) (AtomicLock.mk true 5) rfl rfl).2.mpr
      (by decide)⟩
